import Mathlib

/-!
Verification of the data-schema layer of a personal stock-portfolio
tracker (`app/models.py`).  The file is pure declarative schema: seven
persisted tables, nine non-persisted request/response shapes, and three
string enums.  We embed the schema at two levels:

* value level — each model becomes a Lean structure whose field types
  translate the Python annotations (`Decimal` with `decimal_places=p`
  becomes `ℚ` constrained to `p` places, `datetime` becomes `Nat`,
  `Optional[T]` becomes `Option T`), with the source's declared defaults;

* metadata level — each model also becomes a `ModelSpec`, a list of
  `FieldSpec` records transcribing name, type, uniqueness, max length,
  regex presence, foreign key and default of every declared field, so
  that schema-shape claims are decidable by evaluation.
-/

namespace StockTracker

/-- `class TransactionType(str, Enum)` with members BUY, SELL. -/
inductive TransactionType where
  | BUY
  | SELL
deriving DecidableEq, Repr

/-- `class AlertType(str, Enum)` with members ABOVE, BELOW. -/
inductive AlertType where
  | ABOVE
  | BELOW
deriving DecidableEq, Repr

/-- `class AlertStatus(str, Enum)` with members ACTIVE, TRIGGERED, DISABLED. -/
inductive AlertStatus where
  | ACTIVE
  | TRIGGERED
  | DISABLED
deriving DecidableEq, Repr

/-- The string value carried by a `TransactionType` member (it subclasses `str`). -/
def TransactionType.value : TransactionType → String
  | .BUY => "BUY"
  | .SELL => "SELL"

/-- The string value carried by an `AlertStatus` member (it subclasses `str`). -/
def AlertStatus.value : AlertStatus → String
  | .ACTIVE => "ACTIVE"
  | .TRIGGERED => "TRIGGERED"
  | .DISABLED => "DISABLED"

/-- A JSON value, for the `Dict[str, Any]` column `Stock.market_data`
(stored through `sa_column=Column(JSON)`). -/
inductive JsonVal where
  | null
  | bool (b : Bool)
  | num (q : ℚ)
  | str (s : String)
  | arr (xs : List JsonVal)
  | obj (kvs : List (String × JsonVal))

/-- A rational `q` is representable as a fixed-point decimal with `p`
decimal places exactly when `q * 10^p` is an integer, equivalently when
the reduced denominator of `q` divides `10^p`.  Stated through the
denominator so that it is decidable on concrete data. -/
def hasPlaces (p : Nat) (q : ℚ) : Prop := q.den ∣ 10 ^ p

instance (p : Nat) (q : ℚ) : Decidable (hasPlaces p q) := by
  unfold hasPlaces; infer_instance

/-- Quantisation of a rational to `p` decimal places (round toward
minus infinity on the scaled integer), the effect of storing a value in
a column declared with `decimal_places=p`. -/
def roundToPlaces (p : Nat) (q : ℚ) : ℚ := (⌊q * (10 : ℚ) ^ p⌋ : ℚ) / (10 : ℚ) ^ p

/-- `hasPlaces p q` says exactly that `q` is an integer over `10^p`. -/
theorem hasPlaces_iff (p : Nat) (q : ℚ) :
    hasPlaces p q ↔ ∃ n : ℤ, q = (n : ℚ) / (10 : ℚ) ^ p := by
  constructor
  · rintro ⟨k, hk⟩
    refine ⟨q.num * k, ?_⟩
    have hk0 : k ≠ 0 := by
      rintro rfl
      rw [Nat.mul_zero] at hk
      exact pow_ne_zero p (by norm_num) hk
    have hkq : (k : ℚ) ≠ 0 := Nat.cast_ne_zero.2 hk0
    have h10 : (10 : ℚ) ^ p = (q.den : ℚ) * (k : ℚ) := by
      have hcast : ((10 ^ p : ℕ) : ℚ) = ((q.den * k : ℕ) : ℚ) := by
        exact_mod_cast congrArg (Nat.cast : ℕ → ℚ) hk
      push_cast at hcast
      exact hcast
    rw [h10]
    push_cast
    rw [mul_div_mul_right _ _ hkq]
    exact (Rat.num_div_den q).symm
  · rintro ⟨n, rfl⟩
    have hdiv : (n : ℚ) / (10 : ℚ) ^ p = Rat.divInt n ((10 : ℤ) ^ p) := by
      rw [Rat.divInt_eq_div]
      push_cast
      ring
    rw [hdiv]
    unfold hasPlaces
    have hdvd : ((Rat.divInt n ((10 : ℤ) ^ p)).den : ℤ) ∣ (10 : ℤ) ^ p :=
      Rat.den_dvd n ((10 : ℤ) ^ p)
    have h10 : ((10 : ℤ) ^ p) = (((10 : ℕ) ^ p : ℕ) : ℤ) := by push_cast; ring
    rw [h10] at hdvd
    exact_mod_cast hdvd

/-- Storing a value that already has `p` decimal places through
quantisation at `p` places returns it unchanged: declared precision is
preserved. -/
theorem roundToPlaces_eq_of_hasPlaces (p : Nat) (q : ℚ) (h : hasPlaces p q) :
    roundToPlaces p q = q := by
  rcases (hasPlaces_iff p q).1 h with ⟨n, rfl⟩
  have hpow : ((10 : ℚ) ^ p) ≠ 0 := by positivity
  unfold roundToPlaces
  rw [div_mul_cancel₀ _ hpow]
  rw [Int.floor_intCast]

/-! ## Value-level row structures (persisted tables)

Field order, optionality and defaults follow `app/models.py`.
`datetime` columns are abstracted as `Nat` timestamps; `default_factory=
datetime.utcnow` makes them required constructor arguments here (their
value is call-time dependent, not a schema constant).  ORM
relationship attributes are not columns and are omitted from rows. -/

/-- Table `users`. -/
structure User where
  id : Option Nat := none
  username : String
  email : String
  full_name : String
  is_active : Bool := true
  created_at : Nat
  updated_at : Nat
deriving DecidableEq, Repr

/-- Table `stocks`. -/
structure Stock where
  id : Option Nat := none
  symbol : String
  name : String
  exchange : String
  sector : Option String := none
  market_cap : Option ℚ := none
  current_price : ℚ
  previous_close : ℚ
  day_change : ℚ
  day_change_percent : ℚ
  volume : Int := 0
  last_updated : Nat
  is_active : Bool := true
  created_at : Nat
  market_data : List (String × JsonVal) := []

/-- Table `portfolio_holdings`. -/
structure PortfolioHolding where
  id : Option Nat := none
  user_id : Nat
  stock_id : Nat
  quantity : ℚ
  average_cost : ℚ
  total_invested : ℚ
  current_value : ℚ := 0
  unrealized_gain_loss : ℚ := 0
  unrealized_gain_loss_percent : ℚ := 0
  created_at : Nat
  updated_at : Nat
deriving DecidableEq, Repr

/-- Table `transactions`. -/
structure Transaction where
  id : Option Nat := none
  user_id : Nat
  stock_id : Nat
  transaction_type : TransactionType
  quantity : ℚ
  price : ℚ
  total_amount : ℚ
  fees : ℚ := 0
  notes : Option String := none
  transaction_date : Nat
  created_at : Nat
deriving DecidableEq, Repr

/-- Table `price_alerts`. -/
structure PriceAlert where
  id : Option Nat := none
  user_id : Nat
  stock_id : Nat
  alert_type : AlertType
  target_price : ℚ
  status : AlertStatus := .ACTIVE
  message : Option String := none
  triggered_at : Option Nat := none
  created_at : Nat
  updated_at : Nat
deriving DecidableEq, Repr

/-- Table `stock_price_history`. -/
structure StockPriceHistory where
  id : Option Nat := none
  stock_id : Nat
  price : ℚ
  volume : Int := 0
  timestamp : Nat
  open_price : Option ℚ := none
  high_price : Option ℚ := none
  low_price : Option ℚ := none
  close_price : Option ℚ := none
deriving DecidableEq, Repr

/-- Table `portfolio_summaries`. -/
structure PortfolioSummary where
  id : Option Nat := none
  user_id : Nat
  total_value : ℚ := 0
  total_invested : ℚ := 0
  total_gain_loss : ℚ := 0
  total_gain_loss_percent : ℚ := 0
  day_change : ℚ := 0
  day_change_percent : ℚ := 0
  number_of_holdings : Int := 0
  last_updated : Nat
deriving DecidableEq, Repr

/-! ## Value-level shapes (non-persisted request/response schemas) -/

/-- `class UserCreate(SQLModel, table=False)`. -/
structure UserCreate where
  username : String
  email : String
  full_name : String
deriving DecidableEq, Repr

/-- `class UserUpdate(SQLModel, table=False)`. -/
structure UserUpdate where
  username : Option String := none
  email : Option String := none
  full_name : Option String := none
  is_active : Option Bool := none
deriving DecidableEq, Repr

/-- `class StockCreate(SQLModel, table=False)`. -/
structure StockCreate where
  symbol : String
  name : String
  exchange : String
  sector : Option String := none
  current_price : ℚ
deriving DecidableEq, Repr

/-- `class StockUpdate(SQLModel, table=False)`. -/
structure StockUpdate where
  name : Option String := none
  exchange : Option String := none
  sector : Option String := none
  current_price : Option ℚ := none
  previous_close : Option ℚ := none
  is_active : Option Bool := none
deriving DecidableEq, Repr

/-- `class TransactionCreate(SQLModel, table=False)`. -/
structure TransactionCreate where
  stock_id : Nat
  transaction_type : TransactionType
  quantity : ℚ
  price : ℚ
  fees : ℚ := 0
  notes : Option String := none
  transaction_date : Option Nat := none
deriving DecidableEq, Repr

/-- `class PriceAlertCreate(SQLModel, table=False)`. -/
structure PriceAlertCreate where
  stock_id : Nat
  alert_type : AlertType
  target_price : ℚ
  message : Option String := none
deriving DecidableEq, Repr

/-- `class PriceAlertUpdate(SQLModel, table=False)`. -/
structure PriceAlertUpdate where
  alert_type : Option AlertType := none
  target_price : Option ℚ := none
  status : Option AlertStatus := none
  message : Option String := none
deriving DecidableEq, Repr

/-- `class StockPriceUpdate(SQLModel, table=False)`. -/
structure StockPriceUpdate where
  price : ℚ
  volume : Int := 0
  open_price : Option ℚ := none
  high_price : Option ℚ := none
  low_price : Option ℚ := none
  close_price : Option ℚ := none
deriving DecidableEq, Repr

/-- `class PortfolioHoldingResponse(SQLModel, table=False)`. -/
structure PortfolioHoldingResponse where
  id : Nat
  stock_symbol : String
  stock_name : String
  quantity : ℚ
  average_cost : ℚ
  current_price : ℚ
  current_value : ℚ
  unrealized_gain_loss : ℚ
  unrealized_gain_loss_percent : ℚ
  day_change : ℚ
  day_change_percent : ℚ
deriving DecidableEq, Repr

/-- `class PortfolioSummaryResponse(SQLModel, table=False)`. -/
structure PortfolioSummaryResponse where
  total_value : ℚ
  total_invested : ℚ
  total_gain_loss : ℚ
  total_gain_loss_percent : ℚ
  day_change : ℚ
  day_change_percent : ℚ
  number_of_holdings : Int
  holdings : List PortfolioHoldingResponse
deriving DecidableEq, Repr

/-- `class StockSearchResponse(SQLModel, table=False)`. -/
structure StockSearchResponse where
  symbol : String
  name : String
  exchange : String
  current_price : ℚ
  day_change : ℚ
  day_change_percent : ℚ
deriving DecidableEq, Repr

/-! ## The email regex

`User.email` declares `regex=r"^[a-zA-Z0-9_.+-]+@[a-zA-Z0-9-]+\.[a-zA-Z0-9-.]+$"`.
We implement the exact language of this anchored pattern on `List Char`:
a nonempty local part over `[a-zA-Z0-9_.+-]`, one `@`, a nonempty label
over `[a-zA-Z0-9-]`, one `.`, and a nonempty tail over `[a-zA-Z0-9-.]`.
Since none of the classes contains `@` and the label class contains no
dot, a successful match decomposes uniquely at the `@` and at the first
dot after it. -/

/-- Membership in the character class `[a-zA-Z0-9_.+-]` (local part). -/
def localChar (c : Char) : Bool :=
  c.isAlpha || c.isDigit || c == '_' || c == '.' || c == '+' || c == '-'

/-- Membership in the character class `[a-zA-Z0-9-]` (first domain label). -/
def labelChar (c : Char) : Bool :=
  c.isAlpha || c.isDigit || c == '-'

/-- Membership in the character class `[a-zA-Z0-9-.]` (domain tail). -/
def tailChar (c : Char) : Bool :=
  c.isAlpha || c.isDigit || c == '-' || c == '.'

/-- Match `[a-zA-Z0-9-]+\.[a-zA-Z0-9-.]+` against the part after `@`:
consume label characters, then require a dot followed by a nonempty
tail.  `seenLabel` records whether at least one label character was
consumed. -/
def matchDomain : List Char → Bool → Bool
  | [], _ => false
  | '.' :: rest, seenLabel => seenLabel && !rest.isEmpty && rest.all tailChar
  | c :: rest, _ =>
    if labelChar c then matchDomain rest true else false

/-- Match `^[a-zA-Z0-9_.+-]+@...$`: consume local characters, then an
`@`, then the domain.  `seenLocal` records whether at least one local
character was consumed. -/
def matchEmailChars : List Char → Bool → Bool
  | [], _ => false
  | '@' :: rest, seenLocal => seenLocal && matchDomain rest false
  | c :: rest, _ =>
    if localChar c then matchEmailChars rest true else false

/-- Whether a string matches the email regex declared on `User.email`. -/
def matchesEmailRegex (s : String) : Bool :=
  matchEmailChars s.data false

/-! ## Metadata-level embedding of the schema declarations

Each model is also transcribed as a `ModelSpec`: the literal list of its
field declarations with the constraint keywords of the source
(`primary_key`, `unique`, `max_length`, `regex`, `foreign_key`, `index`,
`decimal_places`, `default` / `default_factory`).  The type grammar
includes a `float` constructor precisely so that the absence of
floating-point fields is an expressible, falsifiable statement; no
declaration below uses it. -/

/-- Python type annotations occurring in the schema (plus `float`,
which occurs nowhere). `decimal places` records the `decimal_places`
keyword when present (`none` for a bare `Decimal` annotation). -/
inductive FieldType where
  | int
  | str
  | bool
  | float
  | datetime
  | decimal (places : Option Nat)
  | jsonDict
  | enum (enumName : String)
  | listOf (elemModel : String)
  | option (t : FieldType)
deriving DecidableEq, Repr

/-- The declared default of a field (`.required` when none). -/
inductive DefaultSpec where
  | required
  | nullDefault
  | boolDefault (b : Bool)
  | intDefault (n : Int)
  | decimalDefault (q : ℚ)
  | enumDefault (v : String)
  | emptyDict
  | nowFactory
deriving DecidableEq, Repr

/-- One field declaration. -/
structure FieldSpec where
  name : String
  type : FieldType
  primaryKey : Bool := false
  unique : Bool := false
  maxLength : Option Nat := none
  emailRegex : Bool := false
  foreignKey : Option String := none
  indexed : Bool := false
  default : DefaultSpec := .required
deriving DecidableEq, Repr

/-- One model declaration: its class name, its table name when
`table=True`, and its fields in declaration order. -/
structure ModelSpec where
  name : String
  tableName : Option String
  fields : List FieldSpec
deriving DecidableEq, Repr

/-- The declared field names of a model. -/
def ModelSpec.fieldNames (m : ModelSpec) : List String := m.fields.map FieldSpec.name

/-- `class User(SQLModel, table=True)`. -/
def userModel : ModelSpec :=
  { name := "User", tableName := some "users", fields :=
    [ { name := "id", type := .option .int, primaryKey := true, default := .nullDefault },
      { name := "username", type := .str, unique := true, maxLength := some 50 },
      { name := "email", type := .str, unique := true, maxLength := some 255,
        emailRegex := true },
      { name := "full_name", type := .str, maxLength := some 100 },
      { name := "is_active", type := .bool, default := .boolDefault true },
      { name := "created_at", type := .datetime, default := .nowFactory },
      { name := "updated_at", type := .datetime, default := .nowFactory } ] }

/-- `class Stock(SQLModel, table=True)`. -/
def stockModel : ModelSpec :=
  { name := "Stock", tableName := some "stocks", fields :=
    [ { name := "id", type := .option .int, primaryKey := true, default := .nullDefault },
      { name := "symbol", type := .str, unique := true, maxLength := some 10,
        indexed := true },
      { name := "name", type := .str, maxLength := some 200 },
      { name := "exchange", type := .str, maxLength := some 50 },
      { name := "sector", type := .option .str, maxLength := some 100,
        default := .nullDefault },
      { name := "market_cap", type := .option (.decimal (some 2)),
        default := .nullDefault },
      { name := "current_price", type := .decimal (some 4) },
      { name := "previous_close", type := .decimal (some 4) },
      { name := "day_change", type := .decimal (some 4) },
      { name := "day_change_percent", type := .decimal (some 4) },
      { name := "volume", type := .int, default := .intDefault 0 },
      { name := "last_updated", type := .datetime, default := .nowFactory },
      { name := "is_active", type := .bool, default := .boolDefault true },
      { name := "created_at", type := .datetime, default := .nowFactory },
      { name := "market_data", type := .jsonDict, default := .emptyDict } ] }

/-- `class PortfolioHolding(SQLModel, table=True)`. -/
def portfolioHoldingModel : ModelSpec :=
  { name := "PortfolioHolding", tableName := some "portfolio_holdings", fields :=
    [ { name := "id", type := .option .int, primaryKey := true, default := .nullDefault },
      { name := "user_id", type := .int, foreignKey := some "users.id", indexed := true },
      { name := "stock_id", type := .int, foreignKey := some "stocks.id", indexed := true },
      { name := "quantity", type := .decimal (some 6) },
      { name := "average_cost", type := .decimal (some 4) },
      { name := "total_invested", type := .decimal (some 2) },
      { name := "current_value", type := .decimal (some 2), default := .decimalDefault 0 },
      { name := "unrealized_gain_loss", type := .decimal (some 2),
        default := .decimalDefault 0 },
      { name := "unrealized_gain_loss_percent", type := .decimal (some 4),
        default := .decimalDefault 0 },
      { name := "created_at", type := .datetime, default := .nowFactory },
      { name := "updated_at", type := .datetime, default := .nowFactory } ] }

/-- `class Transaction(SQLModel, table=True)`. -/
def transactionModel : ModelSpec :=
  { name := "Transaction", tableName := some "transactions", fields :=
    [ { name := "id", type := .option .int, primaryKey := true, default := .nullDefault },
      { name := "user_id", type := .int, foreignKey := some "users.id", indexed := true },
      { name := "stock_id", type := .int, foreignKey := some "stocks.id", indexed := true },
      { name := "transaction_type", type := .enum "TransactionType" },
      { name := "quantity", type := .decimal (some 6) },
      { name := "price", type := .decimal (some 4) },
      { name := "total_amount", type := .decimal (some 2) },
      { name := "fees", type := .decimal (some 2), default := .decimalDefault 0 },
      { name := "notes", type := .option .str, maxLength := some 500,
        default := .nullDefault },
      { name := "transaction_date", type := .datetime, default := .nowFactory },
      { name := "created_at", type := .datetime, default := .nowFactory } ] }

/-- `class PriceAlert(SQLModel, table=True)`. -/
def priceAlertModel : ModelSpec :=
  { name := "PriceAlert", tableName := some "price_alerts", fields :=
    [ { name := "id", type := .option .int, primaryKey := true, default := .nullDefault },
      { name := "user_id", type := .int, foreignKey := some "users.id", indexed := true },
      { name := "stock_id", type := .int, foreignKey := some "stocks.id", indexed := true },
      { name := "alert_type", type := .enum "AlertType" },
      { name := "target_price", type := .decimal (some 4) },
      { name := "status", type := .enum "AlertStatus", default := .enumDefault "ACTIVE" },
      { name := "message", type := .option .str, maxLength := some 200,
        default := .nullDefault },
      { name := "triggered_at", type := .option .datetime, default := .nullDefault },
      { name := "created_at", type := .datetime, default := .nowFactory },
      { name := "updated_at", type := .datetime, default := .nowFactory } ] }

/-- `class StockPriceHistory(SQLModel, table=True)`. -/
def stockPriceHistoryModel : ModelSpec :=
  { name := "StockPriceHistory", tableName := some "stock_price_history", fields :=
    [ { name := "id", type := .option .int, primaryKey := true, default := .nullDefault },
      { name := "stock_id", type := .int, foreignKey := some "stocks.id", indexed := true },
      { name := "price", type := .decimal (some 4) },
      { name := "volume", type := .int, default := .intDefault 0 },
      { name := "timestamp", type := .datetime, indexed := true, default := .nowFactory },
      { name := "open_price", type := .option (.decimal (some 4)),
        default := .nullDefault },
      { name := "high_price", type := .option (.decimal (some 4)),
        default := .nullDefault },
      { name := "low_price", type := .option (.decimal (some 4)),
        default := .nullDefault },
      { name := "close_price", type := .option (.decimal (some 4)),
        default := .nullDefault } ] }

/-- `class PortfolioSummary(SQLModel, table=True)`. -/
def portfolioSummaryModel : ModelSpec :=
  { name := "PortfolioSummary", tableName := some "portfolio_summaries", fields :=
    [ { name := "id", type := .option .int, primaryKey := true, default := .nullDefault },
      { name := "user_id", type := .int, foreignKey := some "users.id",
        unique := true, indexed := true },
      { name := "total_value", type := .decimal (some 2), default := .decimalDefault 0 },
      { name := "total_invested", type := .decimal (some 2), default := .decimalDefault 0 },
      { name := "total_gain_loss", type := .decimal (some 2),
        default := .decimalDefault 0 },
      { name := "total_gain_loss_percent", type := .decimal (some 4),
        default := .decimalDefault 0 },
      { name := "day_change", type := .decimal (some 2), default := .decimalDefault 0 },
      { name := "day_change_percent", type := .decimal (some 4),
        default := .decimalDefault 0 },
      { name := "number_of_holdings", type := .int, default := .intDefault 0 },
      { name := "last_updated", type := .datetime, default := .nowFactory } ] }

/-- `class UserCreate(SQLModel, table=False)` metadata. -/
def userCreateModel : ModelSpec :=
  { name := "UserCreate", tableName := none, fields :=
    [ { name := "username", type := .str, maxLength := some 50 },
      { name := "email", type := .str, maxLength := some 255 },
      { name := "full_name", type := .str, maxLength := some 100 } ] }

/-- `class UserUpdate(SQLModel, table=False)` metadata. -/
def userUpdateModel : ModelSpec :=
  { name := "UserUpdate", tableName := none, fields :=
    [ { name := "username", type := .option .str, maxLength := some 50,
        default := .nullDefault },
      { name := "email", type := .option .str, maxLength := some 255,
        default := .nullDefault },
      { name := "full_name", type := .option .str, maxLength := some 100,
        default := .nullDefault },
      { name := "is_active", type := .option .bool, default := .nullDefault } ] }

/-- `class StockCreate(SQLModel, table=False)` metadata. -/
def stockCreateModel : ModelSpec :=
  { name := "StockCreate", tableName := none, fields :=
    [ { name := "symbol", type := .str, maxLength := some 10 },
      { name := "name", type := .str, maxLength := some 200 },
      { name := "exchange", type := .str, maxLength := some 50 },
      { name := "sector", type := .option .str, maxLength := some 100,
        default := .nullDefault },
      { name := "current_price", type := .decimal (some 4) } ] }

/-- `class StockUpdate(SQLModel, table=False)` metadata. -/
def stockUpdateModel : ModelSpec :=
  { name := "StockUpdate", tableName := none, fields :=
    [ { name := "name", type := .option .str, maxLength := some 200,
        default := .nullDefault },
      { name := "exchange", type := .option .str, maxLength := some 50,
        default := .nullDefault },
      { name := "sector", type := .option .str, maxLength := some 100,
        default := .nullDefault },
      { name := "current_price", type := .option (.decimal (some 4)),
        default := .nullDefault },
      { name := "previous_close", type := .option (.decimal (some 4)),
        default := .nullDefault },
      { name := "is_active", type := .option .bool, default := .nullDefault } ] }

/-- `class TransactionCreate(SQLModel, table=False)` metadata. -/
def transactionCreateModel : ModelSpec :=
  { name := "TransactionCreate", tableName := none, fields :=
    [ { name := "stock_id", type := .int },
      { name := "transaction_type", type := .enum "TransactionType" },
      { name := "quantity", type := .decimal (some 6) },
      { name := "price", type := .decimal (some 4) },
      { name := "fees", type := .decimal (some 2), default := .decimalDefault 0 },
      { name := "notes", type := .option .str, maxLength := some 500,
        default := .nullDefault },
      { name := "transaction_date", type := .option .datetime,
        default := .nullDefault } ] }

/-- `class PriceAlertCreate(SQLModel, table=False)` metadata. -/
def priceAlertCreateModel : ModelSpec :=
  { name := "PriceAlertCreate", tableName := none, fields :=
    [ { name := "stock_id", type := .int },
      { name := "alert_type", type := .enum "AlertType" },
      { name := "target_price", type := .decimal (some 4) },
      { name := "message", type := .option .str, maxLength := some 200,
        default := .nullDefault } ] }

/-- `class PriceAlertUpdate(SQLModel, table=False)` metadata. -/
def priceAlertUpdateModel : ModelSpec :=
  { name := "PriceAlertUpdate", tableName := none, fields :=
    [ { name := "alert_type", type := .option (.enum "AlertType"),
        default := .nullDefault },
      { name := "target_price", type := .option (.decimal (some 4)),
        default := .nullDefault },
      { name := "status", type := .option (.enum "AlertStatus"),
        default := .nullDefault },
      { name := "message", type := .option .str, maxLength := some 200,
        default := .nullDefault } ] }

/-- `class StockPriceUpdate(SQLModel, table=False)` metadata. -/
def stockPriceUpdateModel : ModelSpec :=
  { name := "StockPriceUpdate", tableName := none, fields :=
    [ { name := "price", type := .decimal (some 4) },
      { name := "volume", type := .int, default := .intDefault 0 },
      { name := "open_price", type := .option (.decimal (some 4)),
        default := .nullDefault },
      { name := "high_price", type := .option (.decimal (some 4)),
        default := .nullDefault },
      { name := "low_price", type := .option (.decimal (some 4)),
        default := .nullDefault },
      { name := "close_price", type := .option (.decimal (some 4)),
        default := .nullDefault } ] }

/-- `class PortfolioHoldingResponse(SQLModel, table=False)` metadata.
Its `Decimal` fields are bare annotations: no `decimal_places` keyword. -/
def portfolioHoldingResponseModel : ModelSpec :=
  { name := "PortfolioHoldingResponse", tableName := none, fields :=
    [ { name := "id", type := .int },
      { name := "stock_symbol", type := .str },
      { name := "stock_name", type := .str },
      { name := "quantity", type := .decimal none },
      { name := "average_cost", type := .decimal none },
      { name := "current_price", type := .decimal none },
      { name := "current_value", type := .decimal none },
      { name := "unrealized_gain_loss", type := .decimal none },
      { name := "unrealized_gain_loss_percent", type := .decimal none },
      { name := "day_change", type := .decimal none },
      { name := "day_change_percent", type := .decimal none } ] }

/-- `class PortfolioSummaryResponse(SQLModel, table=False)` metadata. -/
def portfolioSummaryResponseModel : ModelSpec :=
  { name := "PortfolioSummaryResponse", tableName := none, fields :=
    [ { name := "total_value", type := .decimal none },
      { name := "total_invested", type := .decimal none },
      { name := "total_gain_loss", type := .decimal none },
      { name := "total_gain_loss_percent", type := .decimal none },
      { name := "day_change", type := .decimal none },
      { name := "day_change_percent", type := .decimal none },
      { name := "number_of_holdings", type := .int },
      { name := "holdings", type := .listOf "PortfolioHoldingResponse" } ] }

/-- `class StockSearchResponse(SQLModel, table=False)` metadata. -/
def stockSearchResponseModel : ModelSpec :=
  { name := "StockSearchResponse", tableName := none, fields :=
    [ { name := "symbol", type := .str },
      { name := "name", type := .str },
      { name := "exchange", type := .str },
      { name := "current_price", type := .decimal none },
      { name := "day_change", type := .decimal none },
      { name := "day_change_percent", type := .decimal none } ] }

/-- The seven persisted tables, in declaration order. -/
def persistedModels : List ModelSpec :=
  [userModel, stockModel, portfolioHoldingModel, transactionModel,
   priceAlertModel, stockPriceHistoryModel, portfolioSummaryModel]

/-- The nine non-persisted request shapes plus three response shapes. -/
def schemaModels : List ModelSpec :=
  [userCreateModel, userUpdateModel, stockCreateModel, stockUpdateModel,
   transactionCreateModel, priceAlertCreateModel, priceAlertUpdateModel,
   stockPriceUpdateModel, portfolioHoldingResponseModel,
   portfolioSummaryResponseModel, stockSearchResponseModel]

/-- Every model declared in `app/models.py`, in declaration order. -/
def allModels : List ModelSpec := persistedModels ++ schemaModels

/-- Role of a non-persisted schema. -/
inductive SchemaKind where
  | create
  | update
  | response
deriving DecidableEq, Repr

/-- A non-persisted schema together with its role and the persisted
entity it corresponds to (by naming: `UserCreate`/`UserUpdate` ↔ `User`,
`StockPriceUpdate` ↔ `StockPriceHistory`, `StockSearchResponse` ↔
`Stock`, the portfolio responses ↔ their tables). -/
structure ApiSchema where
  spec : ModelSpec
  kind : SchemaKind
  entity : ModelSpec
deriving DecidableEq, Repr

/-- The API-facing schemas of the file with their corresponding
persisted entities. -/
def apiSchemas : List ApiSchema :=
  [ ⟨userCreateModel, .create, userModel⟩,
    ⟨userUpdateModel, .update, userModel⟩,
    ⟨stockCreateModel, .create, stockModel⟩,
    ⟨stockUpdateModel, .update, stockModel⟩,
    ⟨transactionCreateModel, .create, transactionModel⟩,
    ⟨priceAlertCreateModel, .create, priceAlertModel⟩,
    ⟨priceAlertUpdateModel, .update, priceAlertModel⟩,
    ⟨stockPriceUpdateModel, .update, stockPriceHistoryModel⟩,
    ⟨portfolioHoldingResponseModel, .response, portfolioHoldingModel⟩,
    ⟨portfolioSummaryResponseModel, .response, portfolioSummaryModel⟩,
    ⟨stockSearchResponseModel, .response, stockModel⟩ ]

/-- The internal fields that response shapes are claimed to omit. -/
def internalFieldNames : List String := ["id", "created_at", "updated_at", "last_updated"]

/-! ## Database states and the declared constraints

A database state is a list of rows per table.  Validity is the
conjunction of the field-level constraints (`max_length`, the email
`regex`, `decimal_places`) and the table-level constraints
(`unique`, `foreign_key`) exactly as declared in `app/models.py`. -/

/-- A predicate holds of an optional value when the value, if present,
satisfies it (nullable columns constrain only non-null values). -/
def optHolds (P : α → Prop) : Option α → Prop
  | none => True
  | some x => P x

instance {P : α → Prop} [DecidablePred P] (o : Option α) :
    Decidable (optHolds P o) := by
  cases o
  · exact isTrue trivial
  · unfold optHolds; infer_instance

/-- Field constraints of `users`: `max_length` 50/255/100 and the email
regex. -/
def User.rowValid (u : User) : Prop :=
  u.username.length ≤ 50 ∧ u.email.length ≤ 255 ∧
  matchesEmailRegex u.email = true ∧ u.full_name.length ≤ 100

/-- Field constraints of `stocks`: `max_length` and `decimal_places`. -/
def Stock.rowValid (s : Stock) : Prop :=
  s.symbol.length ≤ 10 ∧ s.name.length ≤ 200 ∧ s.exchange.length ≤ 50 ∧
  optHolds (fun t => t.length ≤ 100) s.sector ∧
  optHolds (hasPlaces 2) s.market_cap ∧
  hasPlaces 4 s.current_price ∧ hasPlaces 4 s.previous_close ∧
  hasPlaces 4 s.day_change ∧ hasPlaces 4 s.day_change_percent

/-- Field constraints of `portfolio_holdings`: `decimal_places`. -/
def PortfolioHolding.rowValid (h : PortfolioHolding) : Prop :=
  hasPlaces 6 h.quantity ∧ hasPlaces 4 h.average_cost ∧
  hasPlaces 2 h.total_invested ∧ hasPlaces 2 h.current_value ∧
  hasPlaces 2 h.unrealized_gain_loss ∧ hasPlaces 4 h.unrealized_gain_loss_percent

/-- Field constraints of `transactions`: `decimal_places` and
`max_length` on `notes`. -/
def Transaction.rowValid (t : Transaction) : Prop :=
  hasPlaces 6 t.quantity ∧ hasPlaces 4 t.price ∧
  hasPlaces 2 t.total_amount ∧ hasPlaces 2 t.fees ∧
  optHolds (fun s => s.length ≤ 500) t.notes

/-- Field constraints of `price_alerts`: `decimal_places` and
`max_length` on `message`. -/
def PriceAlert.rowValid (a : PriceAlert) : Prop :=
  hasPlaces 4 a.target_price ∧ optHolds (fun s => s.length ≤ 200) a.message

/-- Field constraints of `stock_price_history`: `decimal_places`. -/
def StockPriceHistory.rowValid (h : StockPriceHistory) : Prop :=
  hasPlaces 4 h.price ∧
  optHolds (hasPlaces 4) h.open_price ∧ optHolds (hasPlaces 4) h.high_price ∧
  optHolds (hasPlaces 4) h.low_price ∧ optHolds (hasPlaces 4) h.close_price

/-- Field constraints of `portfolio_summaries`: `decimal_places`. -/
def PortfolioSummary.rowValid (s : PortfolioSummary) : Prop :=
  hasPlaces 2 s.total_value ∧ hasPlaces 2 s.total_invested ∧
  hasPlaces 2 s.total_gain_loss ∧ hasPlaces 4 s.total_gain_loss_percent ∧
  hasPlaces 2 s.day_change ∧ hasPlaces 4 s.day_change_percent

instance (u : User) : Decidable u.rowValid := by
  unfold User.rowValid; infer_instance

instance (s : Stock) : Decidable s.rowValid := by
  unfold Stock.rowValid; infer_instance

instance (h : PortfolioHolding) : Decidable h.rowValid := by
  unfold PortfolioHolding.rowValid; infer_instance

instance (t : Transaction) : Decidable t.rowValid := by
  unfold Transaction.rowValid; infer_instance

instance (a : PriceAlert) : Decidable a.rowValid := by
  unfold PriceAlert.rowValid; infer_instance

instance (h : StockPriceHistory) : Decidable h.rowValid := by
  unfold StockPriceHistory.rowValid; infer_instance

instance (s : PortfolioSummary) : Decidable s.rowValid := by
  unfold PortfolioSummary.rowValid; infer_instance

/-- A database state: one list of rows per declared table. -/
structure DB where
  users : List User
  stocks : List Stock
  holdings : List PortfolioHolding
  transactions : List Transaction
  alerts : List PriceAlert
  price_history : List StockPriceHistory
  summaries : List PortfolioSummary

/-- A state satisfying every constraint declared in the schema: row
constraints, the `unique=True` columns (`User.username`, `User.email`,
`Stock.symbol`, `PortfolioSummary.user_id`), and the `foreign_key`
columns. -/
def DB.valid (db : DB) : Prop :=
  (∀ u ∈ db.users, u.rowValid) ∧
  (∀ s ∈ db.stocks, s.rowValid) ∧
  (∀ h ∈ db.holdings, h.rowValid) ∧
  (∀ t ∈ db.transactions, t.rowValid) ∧
  (∀ a ∈ db.alerts, a.rowValid) ∧
  (∀ h ∈ db.price_history, h.rowValid) ∧
  (∀ s ∈ db.summaries, s.rowValid) ∧
  (db.users.map User.username).Pairwise (· ≠ ·) ∧
  (db.users.map User.email).Pairwise (· ≠ ·) ∧
  (db.stocks.map Stock.symbol).Pairwise (· ≠ ·) ∧
  (db.summaries.map PortfolioSummary.user_id).Pairwise (· ≠ ·) ∧
  (∀ h ∈ db.holdings,
     some h.user_id ∈ db.users.map User.id ∧ some h.stock_id ∈ db.stocks.map Stock.id) ∧
  (∀ t ∈ db.transactions,
     some t.user_id ∈ db.users.map User.id ∧ some t.stock_id ∈ db.stocks.map Stock.id) ∧
  (∀ a ∈ db.alerts,
     some a.user_id ∈ db.users.map User.id ∧ some a.stock_id ∈ db.stocks.map Stock.id) ∧
  (∀ h ∈ db.price_history, some h.stock_id ∈ db.stocks.map Stock.id) ∧
  (∀ s ∈ db.summaries, some s.user_id ∈ db.users.map User.id)

instance (db : DB) : Decidable db.valid := by
  unfold DB.valid; infer_instance

/-- In a list whose image under a key is pairwise distinct, the key
determines the element. -/
theorem key_inj_of_pairwise_ne {α β : Type} (f : α → β) (l : List α)
    (hp : (l.map f).Pairwise (· ≠ ·)) :
    ∀ a ∈ l, ∀ b ∈ l, f a = f b → a = b := by
  rw [List.pairwise_map] at hp
  intro a ha b hb hfab
  by_contra hne
  have hsymm : Symmetric fun x y : α => f x ≠ f y := by
    intro x y hxy h
    exact hxy h.symm
  exact hp.forall hsymm ha hb hne hfab

/-! ## Operation semantics on the shapes

The repository slice contains no service layer; following the spec
("API-facing create/update/response shapes mirror the persisted
entities minus internal fields, used for input validation"), a create
shape materialises a new row whose remaining columns take their
declared defaults, and an update shape overwrites exactly the fields it
carries. -/

/-- The validation the `UserCreate` shape declares: only the
`max_length` bounds (50, 255, 100).  No regex is declared on its
`email` field. -/
def userCreateAccepts (c : UserCreate) : Bool :=
  decide (c.username.length ≤ 50) && decide (c.email.length ≤ 255) &&
  decide (c.full_name.length ≤ 100)

/-- Modelled from the spec: the service that turns an accepted
`PriceAlertCreate` into a new `price_alerts` row is absent from this
slice; per the spec the create shape mirrors the entity minus internal
fields, so each carried field is copied and every remaining column
takes the default declared in the table model (`status` ↦ ACTIVE,
`triggered_at` ↦ None). -/
def createPriceAlert (uid : Nat) (now : Nat) (c : PriceAlertCreate) : PriceAlert :=
  { user_id := uid, stock_id := c.stock_id, alert_type := c.alert_type,
    target_price := c.target_price, message := c.message,
    created_at := now, updated_at := now }

/-- Modelled from the spec: the handler applying a `PriceAlertUpdate`
to a stored alert is absent from this slice; per the spec the update
shape mirrors the entity, each optional field present in the request
overwriting the stored column and each absent field leaving it
unchanged. -/
def applyPriceAlertUpdate (u : PriceAlertUpdate) (a : PriceAlert) : PriceAlert :=
  { a with
    alert_type := u.alert_type.getD a.alert_type
    target_price := u.target_price.getD a.target_price
    status := u.status.getD a.status
    message := match u.message with
      | none => a.message
      | some m => some m }

/-! ## Concrete witness data -/

/-- A sample `users` row. -/
def exampleUser1 : User :=
  { id := some 1, username := "alice", email := "alice@example.com",
    full_name := "Alice A", created_at := 0, updated_at := 0 }

/-- A second sample `users` row. -/
def exampleUser2 : User :=
  { id := some 2, username := "bob", email := "bob@example.com",
    full_name := "Bob B", created_at := 0, updated_at := 0 }

/-- A sample `stocks` row. -/
def exampleStock : Stock :=
  { id := some 1, symbol := "AAPL", name := "Apple Inc.", exchange := "NASDAQ",
    current_price := 100, previous_close := 99, day_change := 1,
    day_change_percent := 1, last_updated := 0, created_at := 0 }

/-- A sample `portfolio_summaries` row. -/
def exampleSummary : PortfolioSummary := { user_id := 1, last_updated := 0 }

/-- A small database state satisfying every declared constraint. -/
def exampleDB : DB :=
  { users := [exampleUser1, exampleUser2], stocks := [exampleStock],
    holdings := [], transactions := [], alerts := [], price_history := [],
    summaries := [exampleSummary] }

/-- A stored alert in the TRIGGERED state. -/
def cexAlert : PriceAlert :=
  { user_id := 1, stock_id := 1, alert_type := .ABOVE, target_price := 10,
    status := .TRIGGERED, created_at := 0, updated_at := 0 }

/-- An update request carrying `status = ACTIVE`. -/
def cexUpdate : PriceAlertUpdate := { status := some .ACTIVE }

/-! ## Auxiliary predicates for the claims -/

/-- Whether a declared type is (or wraps) the floating-point type. -/
def FieldType.usesFloat : FieldType → Bool
  | .float => true
  | .option t => t.usesFloat
  | _ => false

/-- The `decimal_places` information of a declared type: `none` for a
non-decimal type, `some places` for a (possibly optional) `Decimal`
annotation, where `places` is the declared precision if any. -/
def FieldType.decPlaces : FieldType → Option (Option Nat)
  | .decimal p => some p
  | .option t => t.decPlaces
  | _ => none

/-- Whether `decimal_places` information is "a declared precision of 2,
4, or 6" in the sense of the claim: non-decimal types pass, decimal
types must declare 2, 4 or 6 places. -/
def declaredPlaces246 : Option (Option Nat) → Bool
  | none => true
  | some (some 2) => true
  | some (some 4) => true
  | some (some 6) => true
  | _ => false

/-- Claim C1 as stated: every API-facing shape uses only field names of
its persisted entity, and response shapes carry none of the internal
field names. -/
def claimC1AsStated : Prop :=
  ∀ s ∈ apiSchemas,
    (∀ n ∈ s.spec.fieldNames, n ∈ s.entity.fieldNames) ∧
    (s.kind = .response → ∀ n ∈ s.spec.fieldNames, n ∉ internalFieldNames)

/-- Claim C4 as stated (structural part): no field is floating-point,
and every decimal field carries a declared precision of 2, 4 or 6. -/
def claimC4AsStated : Prop :=
  ∀ m ∈ allModels, ∀ f ∈ m.fields,
    f.type.usesFloat = false ∧ declaredPlaces246 f.type.decPlaces = true

/-- Claim C5 as stated: no operation shape permits a TRIGGERED alert to
become ACTIVE. -/
def claimC5AsStated : Prop :=
  ∀ (u : PriceAlertUpdate) (a : PriceAlert), a.status = .TRIGGERED →
    (applyPriceAlertUpdate u a).status ≠ .ACTIVE

/-- Claim C6 as stated (create-shape part): every email accepted by the
`UserCreate` shape matches the declared email regex. -/
def claimC6AsStated : Prop :=
  ∀ c : UserCreate, userCreateAccepts c = true → matchesEmailRegex c.email = true

/-! ## The claims -/

/-- C1, counterexample.  `PortfolioHoldingResponse` is an API-facing
response shape for `PortfolioHolding`, yet it carries the internal
field `id`, and it carries `stock_symbol`, which is not a field of
`PortfolioHolding`; so the claim as stated is false. -/
theorem C1_counterexample :
    (⟨portfolioHoldingResponseModel, .response, portfolioHoldingModel⟩ : ApiSchema) ∈ apiSchemas ∧
    "id" ∈ portfolioHoldingResponseModel.fieldNames ∧
    "id" ∈ internalFieldNames ∧
    "stock_symbol" ∈ portfolioHoldingResponseModel.fieldNames ∧
    "stock_symbol" ∉ portfolioHoldingModel.fieldNames ∧
    ¬ claimC1AsStated := by
  refine ⟨by decide, by decide, by decide, by decide, by decide, ?_⟩
  intro h
  have h2 := h ⟨portfolioHoldingResponseModel, .response, portfolioHoldingModel⟩ (by decide)
  exact (h2.2 rfl "id" (by decide)) (by decide)

/-- C1, amended.  Every create/update shape carries only fields of its
persisted entity and none of the internal fields; `StockSearchResponse`
carries only `Stock` fields and no internal field;
`PortfolioSummaryResponse` carries no internal field and, apart from
the joined `holdings` list, only `PortfolioSummary` fields;
`PortfolioHoldingResponse` carries only `PortfolioHolding` fields plus
the joined stock fields, carries the internal field `id`, and carries
no timestamp field. -/
theorem C1_amended :
    (∀ s ∈ apiSchemas, s.kind ≠ .response →
       (∀ n ∈ s.spec.fieldNames, n ∈ s.entity.fieldNames) ∧
       (∀ n ∈ s.spec.fieldNames, n ∉ internalFieldNames)) ∧
    (∀ n ∈ stockSearchResponseModel.fieldNames,
       n ∈ stockModel.fieldNames ∧ n ∉ internalFieldNames) ∧
    (∀ n ∈ portfolioSummaryResponseModel.fieldNames,
       n ∉ internalFieldNames ∧ (n ≠ "holdings" → n ∈ portfolioSummaryModel.fieldNames)) ∧
    (∀ n ∈ portfolioHoldingResponseModel.fieldNames,
       n ∈ portfolioHoldingModel.fieldNames ∨
       n ∈ ["stock_symbol", "stock_name", "current_price", "day_change",
            "day_change_percent"]) ∧
    "id" ∈ portfolioHoldingResponseModel.fieldNames ∧
    (∀ n ∈ portfolioHoldingResponseModel.fieldNames,
       n ≠ "created_at" ∧ n ≠ "updated_at" ∧ n ≠ "last_updated") := by
  decide

/-- C1, witness: the amended theorem applied to the `UserCreate` shape
and its `email` field. -/
theorem C1_amended_witness :
    "email" ∈ userModel.fieldNames ∧ "email" ∉ internalFieldNames :=
  ⟨(C1_amended.1 ⟨userCreateModel, .create, userModel⟩ (by decide) (by decide)).1
     "email" (by decide),
   (C1_amended.1 ⟨userCreateModel, .create, userModel⟩ (by decide) (by decide)).2
     "email" (by decide)⟩

/-- C2: in a valid database state the `unique=True` columns determine
their rows — no two `users` rows share a `username` or an `email`, no
two `stocks` rows share a `symbol`, and no two `portfolio_summaries`
rows share a `user_id`, so each user has at most one summary row. -/
theorem C2_unique_columns (db : DB) (hv : db.valid) :
    (∀ u₁ ∈ db.users, ∀ u₂ ∈ db.users, u₁.username = u₂.username → u₁ = u₂) ∧
    (∀ u₁ ∈ db.users, ∀ u₂ ∈ db.users, u₁.email = u₂.email → u₁ = u₂) ∧
    (∀ s₁ ∈ db.stocks, ∀ s₂ ∈ db.stocks, s₁.symbol = s₂.symbol → s₁ = s₂) ∧
    (∀ p₁ ∈ db.summaries, ∀ p₂ ∈ db.summaries, p₁.user_id = p₂.user_id → p₁ = p₂) := by
  obtain ⟨-, -, -, -, -, -, -, hu, he, hs, hp, -⟩ := hv
  exact ⟨key_inj_of_pairwise_ne User.username db.users hu,
         key_inj_of_pairwise_ne User.email db.users he,
         key_inj_of_pairwise_ne Stock.symbol db.stocks hs,
         key_inj_of_pairwise_ne PortfolioSummary.user_id db.summaries hp⟩

/-- C2, witness: the theorem applied to a concrete valid database. -/
theorem C2_unique_columns_witness :
    exampleUser1 = exampleUser1 ∧ exampleStock = exampleStock ∧
    exampleSummary = exampleSummary := by
  have h := C2_unique_columns exampleDB (by decide)
  exact ⟨h.1 exampleUser1 (by decide) exampleUser1 (by decide) rfl,
         h.2.2.1 exampleStock (by simp [exampleDB]) exampleStock (by simp [exampleDB]) rfl,
         h.2.2.2 exampleSummary (by decide) exampleSummary (by decide) rfl⟩

/-- C3: the `transaction_type` of any `transactions` row can only be
BUY or SELL, and the `status` of any `price_alerts` row can only be
ACTIVE, TRIGGERED or DISABLED — the enum types admit no other value,
at the member level or at the carried-string level. -/
theorem C3_enum_values :
    (∀ t : Transaction,
       t.transaction_type = .BUY ∨ t.transaction_type = .SELL) ∧
    (∀ a : PriceAlert,
       a.status = .ACTIVE ∨ a.status = .TRIGGERED ∨ a.status = .DISABLED) ∧
    (∀ tt : TransactionType, tt.value = "BUY" ∨ tt.value = "SELL") ∧
    (∀ st : AlertStatus,
       st.value = "ACTIVE" ∨ st.value = "TRIGGERED" ∨ st.value = "DISABLED") := by
  refine ⟨fun t => ?_, fun a => ?_, fun tt => ?_, fun st => ?_⟩
  · cases t.transaction_type
    · exact Or.inl rfl
    · exact Or.inr rfl
  · cases a.status
    · exact Or.inl rfl
    · exact Or.inr (Or.inl rfl)
    · exact Or.inr (Or.inr rfl)
  · cases tt
    · exact Or.inl rfl
    · exact Or.inr rfl
  · cases st
    · exact Or.inl rfl
    · exact Or.inr (Or.inl rfl)
    · exact Or.inr (Or.inr rfl)

/-- C4, counterexample.  The `quantity` field of
`PortfolioHoldingResponse` is a bare `Decimal` annotation with no
`decimal_places` keyword, so not every monetary/quantity field carries
a declared precision; the claim as stated is false. -/
theorem C4_counterexample :
    ({ name := "quantity", type := .decimal none } : FieldSpec) ∈
      portfolioHoldingResponseModel.fields ∧
    (FieldType.decimal none).decPlaces = some none ∧
    declaredPlaces246 (some none) = false ∧
    ¬ claimC4AsStated := by
  refine ⟨by decide, rfl, rfl, ?_⟩
  intro h
  have h2 := h portfolioHoldingResponseModel (by decide)
    { name := "quantity", type := .decimal none } (by decide)
  exact absurd h2.2 (by decide)

/-- C4, amended.  No field anywhere in the schema is floating-point;
every decimal field of the persisted tables and of the create/update
shapes declares a precision of 2, 4 or 6 places; the decimal fields of
the three response shapes are bare `Decimal` annotations declaring no
precision; and quantisation at the declared precision preserves every
value that already has that precision. -/
theorem C4_amended :
    (∀ m ∈ allModels, ∀ f ∈ m.fields, f.type.usesFloat = false) ∧
    (∀ m ∈ persistedModels, ∀ f ∈ m.fields, declaredPlaces246 f.type.decPlaces = true) ∧
    (∀ s ∈ apiSchemas, s.kind ≠ .response →
       ∀ f ∈ s.spec.fields, declaredPlaces246 f.type.decPlaces = true) ∧
    (∀ s ∈ apiSchemas, s.kind = .response →
       ∀ f ∈ s.spec.fields,
         f.type.decPlaces = none ∨ f.type.decPlaces = some none) ∧
    (∀ (p : Nat) (q : ℚ), hasPlaces p q → roundToPlaces p q = q) := by
  refine ⟨by decide, by decide, by decide, by decide, ?_⟩
  exact roundToPlaces_eq_of_hasPlaces

/-- C4, witness: the amended theorem applied to the `current_price`
field of `Stock` and to the 2-place value 75/100. -/
theorem C4_amended_witness :
    (FieldType.decimal (some 4)).usesFloat = false ∧
    declaredPlaces246 (FieldType.decimal (some 4)).decPlaces = true ∧
    roundToPlaces 2 ((75 : ℚ)/100) = (75 : ℚ)/100 :=
  ⟨C4_amended.1 stockModel (by decide)
     { name := "current_price", type := .decimal (some 4) } (by decide),
   C4_amended.2.1 stockModel (by decide)
     { name := "current_price", type := .decimal (some 4) } (by decide),
   C4_amended.2.2.2.2 2 ((75 : ℚ)/100) ((hasPlaces_iff 2 _).2 ⟨75, by norm_num⟩)⟩

/-- C5, counterexample.  `PriceAlertUpdate` carries an unrestricted
optional `status` field: applying an update carrying `status = ACTIVE`
to an alert in state TRIGGERED yields state ACTIVE, so the slice does
permit a TRIGGERED → ACTIVE transition and the claim as stated is
false. -/
theorem C5_counterexample :
    cexAlert.status = .TRIGGERED ∧
    cexUpdate.status = some .ACTIVE ∧
    (applyPriceAlertUpdate cexUpdate cexAlert).status = .ACTIVE ∧
    ¬ claimC5AsStated := by
  refine ⟨rfl, rfl, rfl, ?_⟩
  intro h
  exact h cexUpdate cexAlert rfl rfl

/-- C5, amended.  `PriceAlertUpdate`'s `status` field is an
unrestricted `Optional[AlertStatus]`: an update carrying a status sets
the alert to exactly that status whatever the previous one, and an
update carrying none leaves it unchanged — so ACTIVE → TRIGGERED and
ACTIVE → DISABLED are permitted, but transitions are not
one-directional: TRIGGERED → ACTIVE is equally permitted and nothing in
this slice forbids it. -/
theorem C5_amended :
    (∀ (a : PriceAlert) (u : PriceAlertUpdate) (s : AlertStatus),
       u.status = some s → (applyPriceAlertUpdate u a).status = s) ∧
    (∀ (a : PriceAlert) (u : PriceAlertUpdate),
       u.status = none → (applyPriceAlertUpdate u a).status = a.status) ∧
    ({ name := "status", type := .option (.enum "AlertStatus"),
       default := .nullDefault } : FieldSpec) ∈ priceAlertUpdateModel.fields := by
  refine ⟨fun a u s hs => ?_, fun a u hn => ?_, by decide⟩
  · simp [applyPriceAlertUpdate, hs]
  · simp [applyPriceAlertUpdate, hn]

/-- C5, witness: the amended theorem applied to the concrete TRIGGERED
alert and the concrete update carrying ACTIVE. -/
theorem C5_amended_witness :
    (applyPriceAlertUpdate cexUpdate cexAlert).status = .ACTIVE :=
  C5_amended.1 cexAlert cexUpdate .ACTIVE rfl

/-- C6, counterexample.  The `UserCreate` shape declares only
`max_length` bounds, no regex: the string "not-an-email" is accepted by
the shape's declared validation yet does not match the email pattern,
so the claim as stated is false. -/
theorem C6_counterexample :
    userCreateAccepts ⟨"u", "not-an-email", "f"⟩ = true ∧
    matchesEmailRegex "not-an-email" = false ∧
    ¬ claimC6AsStated := by
  refine ⟨by decide, by decide, ?_⟩
  intro h
  have h2 := h ⟨"u", "not-an-email", "f"⟩ (by decide)
  exact absurd h2 (by decide)

/-- C6, amended.  The regex is declared at the persisted level only:
every `users` row of a valid database state matches the email pattern,
and the `email` fields of `UserCreate` and `UserUpdate` declare a
255-character bound but no regex, so strings that do not match the
pattern pass the create/update shapes' declared validation. -/
theorem C6_amended (db : DB) (hv : db.valid) :
    (∀ u ∈ db.users, matchesEmailRegex u.email = true) ∧
    ({ name := "email", type := .str, unique := true, maxLength := some 255,
       emailRegex := true } : FieldSpec) ∈ userModel.fields ∧
    ({ name := "email", type := .str, maxLength := some 255 } : FieldSpec) ∈
      userCreateModel.fields ∧
    (∀ f ∈ userCreateModel.fields, f.emailRegex = false) ∧
    (∀ f ∈ userUpdateModel.fields, f.emailRegex = false) := by
  refine ⟨fun u hu => (hv.1 u hu).2.2.1, by decide, by decide, by decide, by decide⟩

/-- C6, witness: the amended theorem applied to the concrete valid
database and its first user. -/
theorem C6_amended_witness : matchesEmailRegex exampleUser1.email = true :=
  (C6_amended exampleDB (by decide)).1 exampleUser1 (by decide)

/-- C7: no update shape for `Transaction` exists among the API-facing
schemas — the only schema whose entity is the `transactions` table is
`TransactionCreate`, no declared model is named "TransactionUpdate",
and hence no operation shape of this slice modifies a persisted
transaction after creation. -/
theorem C7_no_transaction_update :
    (apiSchemas.filter fun s =>
       decide (s.entity = transactionModel) && decide (s.kind = SchemaKind.update)) = [] ∧
    (apiSchemas.filter fun s => decide (s.entity = transactionModel)) =
      [⟨transactionCreateModel, .create, transactionModel⟩] ∧
    (allModels.filter fun m => m.name == "TransactionUpdate") = [] := by
  decide

/-- C8: a `stock_price_history` row built from only `stock_id`,
`price`, `volume` and `timestamp` takes `None` for all four OHLC
columns and satisfies the row constraints whenever its price has 4
places; likewise a `StockPriceUpdate` request carrying only `price` and
`volume` has all four OHLC fields `None`; and all eight OHLC field
declarations are optional 4-place decimals defaulting to `None`. -/
theorem C8_ohlc_optional :
    (∀ (sid : Nat) (p : ℚ) (v : Int) (ts : Nat),
       let row : StockPriceHistory :=
         { stock_id := sid, price := p, volume := v, timestamp := ts }
       row.open_price = none ∧ row.high_price = none ∧
       row.low_price = none ∧ row.close_price = none ∧
       (hasPlaces 4 p → row.rowValid)) ∧
    (∀ (p : ℚ) (v : Int),
       let u : StockPriceUpdate := { price := p, volume := v }
       u.open_price = none ∧ u.high_price = none ∧
       u.low_price = none ∧ u.close_price = none) ∧
    (∀ n ∈ ["open_price", "high_price", "low_price", "close_price"],
       ({ name := n, type := .option (.decimal (some 4)),
          default := .nullDefault } : FieldSpec) ∈ stockPriceHistoryModel.fields ∧
       ({ name := n, type := .option (.decimal (some 4)),
          default := .nullDefault } : FieldSpec) ∈ stockPriceUpdateModel.fields) := by
  refine ⟨fun sid p v ts => ⟨rfl, rfl, rfl, rfl, fun hp => ?_⟩,
          fun p v => ⟨rfl, rfl, rfl, rfl⟩, by decide⟩
  exact ⟨hp, trivial, trivial, trivial, trivial⟩

/-- C8, witness: the theorem applied to a concrete bar carrying only
price 5, volume 100 and timestamp 0, and to the `open_price`
declarations. -/
theorem C8_ohlc_optional_witness :
    ({ stock_id := 1, price := 5, volume := 100, timestamp := 0 } :
      StockPriceHistory).open_price = none ∧
    ({ stock_id := 1, price := 5, volume := 100, timestamp := 0 } :
      StockPriceHistory).rowValid ∧
    ({ name := "open_price", type := .option (.decimal (some 4)),
       default := .nullDefault } : FieldSpec) ∈ stockPriceHistoryModel.fields :=
  ⟨(C8_ohlc_optional.1 1 5 100 0).1,
   (C8_ohlc_optional.1 1 5 100 0).2.2.2.2 (by decide),
   (C8_ohlc_optional.2.2 "open_price" (by decide)).1⟩

/-- C9: a `price_alerts` row created from a `PriceAlertCreate` starts
with `status = ACTIVE` and `triggered_at = None` (the defaults declared
on the table), and the create shape exposes neither a `status` nor a
`triggered_at` field, so no other initial state is expressible. -/
theorem C9_new_alert_initial_state :
    (∀ (uid now : Nat) (c : PriceAlertCreate),
       (createPriceAlert uid now c).status = .ACTIVE ∧
       (createPriceAlert uid now c).triggered_at = none) ∧
    "status" ∉ priceAlertCreateModel.fieldNames ∧
    "triggered_at" ∉ priceAlertCreateModel.fieldNames ∧
    ({ name := "status", type := .enum "AlertStatus",
       default := .enumDefault "ACTIVE" } : FieldSpec) ∈ priceAlertModel.fields ∧
    ({ name := "triggered_at", type := .option .datetime,
       default := .nullDefault } : FieldSpec) ∈ priceAlertModel.fields := by
  exact ⟨fun uid now c => ⟨rfl, rfl⟩, by decide, by decide, by decide, by decide⟩

/-- C10: every derived valuation field defaults to zero — a
`PortfolioHolding` built without them has `current_value`,
`unrealized_gain_loss` and `unrealized_gain_loss_percent` equal to 0,
and a `PortfolioSummary` built without them has all six monetary
rollups and `number_of_holdings` equal to 0. -/
theorem C10_derived_fields_default_zero :
    (∀ (uid sid : Nat) (q ac ti : ℚ) (ca ua : Nat),
       let h : PortfolioHolding :=
         { user_id := uid, stock_id := sid, quantity := q, average_cost := ac,
           total_invested := ti, created_at := ca, updated_at := ua }
       h.current_value = 0 ∧ h.unrealized_gain_loss = 0 ∧
       h.unrealized_gain_loss_percent = 0) ∧
    (∀ (uid lu : Nat),
       let s : PortfolioSummary := { user_id := uid, last_updated := lu }
       s.total_value = 0 ∧ s.total_invested = 0 ∧ s.total_gain_loss = 0 ∧
       s.total_gain_loss_percent = 0 ∧ s.day_change = 0 ∧
       s.day_change_percent = 0 ∧ s.number_of_holdings = 0) := by
  exact ⟨fun uid sid q ac ti ca ua => ⟨rfl, rfl, rfl⟩,
         fun uid lu => ⟨rfl, rfl, rfl, rfl, rfl, rfl, rfl⟩⟩

end StockTracker
